import Mathlib

/-!
Verification development for the Toolkit Converter backend
(src/main.py, src/schemas.py).

Machine floats of the source are embedded as exact rationals (ℚ); all unit
factors in the source are decimal literals, so their ℚ readings are exact.
`HTTPException(status_code, detail)` is embedded as the `Except HTTPError`
error path. External effects (the JWT library, the payment provider, the
document database) are modelled by explicit parameters carrying the outcome
the external system would produce.
-/

namespace ToolkitConverter

/-- Embedding of fastapi.HTTPException: an HTTP status code and a detail
string. -/
structure HTTPError where
  status : Nat
  detail : String
deriving DecidableEq, Repr

/-- src/main.py lines 48-59: the free units map (length in meters base,
weight in grams base), keyed by unit symbol. -/
def FREE_UNITS : List (String × ℚ) :=
  [("mm", 0.001), ("cm", 0.01), ("m", 1.0), ("km", 1000.0),
   ("mg", 0.001), ("g", 1.0), ("kg", 1000.0)]

/-- src/main.py lines 62-70: PRO_UNITS["length"] (meter-relative factors). -/
def PRO_length : List (String × ℚ) :=
  [("in", 0.0254), ("ft", 0.3048), ("yd", 0.9144), ("mi", 1609.344),
   ("nm", 1e-9), ("um", 1e-6)]

/-- src/main.py lines 71-77: PRO_UNITS["area"]. -/
def PRO_area : List (String × ℚ) :=
  [("m2", 1.0), ("cm2", 1e-4), ("km2", 1e6), ("ft2", 0.09290304),
   ("acre", 4046.8564224)]

/-- src/main.py lines 78-84: PRO_UNITS["volume"]. -/
def PRO_volume : List (String × ℚ) :=
  [("ml", 1e-6), ("l", 1e-3), ("m3", 1.0), ("ft3", 0.028316846592),
   ("gal", 0.003785411784)]

/-- src/main.py lines 85-89: PRO_UNITS["weight"] (gram-relative). -/
def PRO_weight : List (String × ℚ) :=
  [("lb", 453.59237), ("oz", 28.349523125), ("ton", 1000000.0)]

/-- src/main.py lines 90-96: PRO_UNITS["time"] (second-relative). -/
def PRO_time : List (String × ℚ) :=
  [("ms", 0.001), ("s", 1.0), ("min", 60.0), ("h", 3600.0), ("day", 86400.0)]

/-- src/main.py line 99: TEMPS = {"C", "F", "K"}. -/
def TEMPS : List String := ["C", "F", "K"]

/-- The literal set {"mm","cm","m","km"} used at src/main.py lines 170, 185,
188. -/
def freeLengthUnits : List String := ["mm", "cm", "m", "km"]

/-- The literal set {"mg","g","kg"} used at src/main.py lines 175, 208, 210. -/
def freeWeightUnits : List String := ["mg", "g", "kg"]

/-- Python str.upper() on the ASCII unit symbols this API handles, written
over the character list so that it reduces definitionally. -/
def strUpper (s : String) : String := ⟨s.data.map Char.toUpper⟩

/-- Python str.lower() on the ASCII unit symbols this API handles, written
over the character list so that it reduces definitionally. -/
def strLower (s : String) : String := ⟨s.data.map Char.toLower⟩

/-- src/main.py lines 101-122: convert_temperature. Normalizes the source
unit to Celsius, then converts to the target; a same-unit request returns
the value unchanged; any unit outside C/F/K raises 400. -/
def convert_temperature (value : ℚ) (from_unit to_unit : String) :
    Except HTTPError ℚ :=
  let f := strUpper from_unit
  let t := strUpper to_unit
  if f = t then .ok value
  else
    let c? : Except HTTPError ℚ :=
      if f = "C" then .ok value
      else if f = "F" then .ok ((value - 32) * 5 / 9)
      else if f = "K" then .ok (value - 273.15)
      else .error ⟨400, "Unsupported temperature unit"⟩
    match c? with
    | .error e => .error e
    | .ok c =>
      if t = "C" then .ok c
      else if t = "F" then .ok (c * 9 / 5 + 32)
      else if t = "K" then .ok (c + 273.15)
      else .error ⟨400, "Unsupported temperature unit"⟩

/-- src/main.py lines 187-190: the local helper to_m of convert. Returns the
meter factor of a free or pro length unit, if any. -/
def to_m (u : String) : Option ℚ :=
  if (FREE_UNITS.lookup u).isSome ∧ u ∈ freeLengthUnits then FREE_UNITS.lookup u
  else PRO_length.lookup u

/-- src/main.py lines 209-212: the local helper to_g of convert. Returns the
gram factor of a free or pro weight unit, if any. -/
def to_g (u : String) : Option ℚ :=
  if u ∈ freeWeightUnits then FREE_UNITS.lookup u
  else PRO_weight.lookup u

/-- src/main.py lines 167-177: the free metric block of convert. Returns the
converted value when both units are in FREE_UNITS and both are length units
or both are weight units; otherwise falls through (none). -/
def freeMetric (value : ℚ) (fu tu : String) : Option ℚ :=
  if (FREE_UNITS.lookup fu).isSome ∧ (FREE_UNITS.lookup tu).isSome then
    if fu ∈ freeLengthUnits ∧ tu ∈ freeLengthUnits then
      some (value * ((FREE_UNITS.lookup fu).getD 0 / (FREE_UNITS.lookup tu).getD 0))
    else if fu ∈ freeWeightUnits ∧ tu ∈ freeWeightUnits then
      some (value * ((FREE_UNITS.lookup fu).getD 0 / (FREE_UNITS.lookup tu).getD 0))
    else none
  else none

/-- src/main.py lines 183-222: the pro branches of convert, tried in order
(combined length, area, volume, combined weight, time); a branch whose guard
holds but whose factors do not both resolve falls through to the next, and
none means the final 400 at line 224. -/
def proBranches (value : ℚ) (fu tu : String) : Option ℚ :=
  let lengthBranch : Option ℚ :=
    if (PRO_length.lookup fu).isSome ∨ (PRO_length.lookup tu).isSome ∨
        fu ∈ freeLengthUnits ∨ tu ∈ freeLengthUnits then
      match to_m fu, to_m tu with
      | some f, some t => some (value * (f / t))
      | _, _ => none
    else none
  let areaBranch : Option ℚ :=
    match PRO_area.lookup fu, PRO_area.lookup tu with
    | some f, some t => some (value * (f / t))
    | _, _ => none
  let volumeBranch : Option ℚ :=
    match PRO_volume.lookup fu, PRO_volume.lookup tu with
    | some f, some t => some (value * (f / t))
    | _, _ => none
  let weightBranch : Option ℚ :=
    if (PRO_weight.lookup fu).isSome ∨ (PRO_weight.lookup tu).isSome ∨
        fu ∈ freeWeightUnits ∨ tu ∈ freeWeightUnits then
      match to_g fu, to_g tu with
      | some f, some t => some (value * (f / t))
      | _, _ => none
    else none
  let timeBranch : Option ℚ :=
    match PRO_time.lookup fu, PRO_time.lookup tu with
    | some f, some t => some (value * (f / t))
    | _, _ => none
  lengthBranch <|> areaBranch <|> volumeBranch <|> weightBranch <|> timeBranch

/-- src/main.py lines 146-224: the body of the /api/convert handler after the
plan has been resolved from the bearer token. Returns the result together
with the echoed plan, or the HTTPException the handler raises. -/
def convert (value : ℚ) (from_unit to_unit plan : String) :
    Except HTTPError (ℚ × String) :=
  let fu := strLower from_unit
  let tu := strLower to_unit
  if strUpper fu ∈ TEMPS ∧ strUpper tu ∈ TEMPS then
    match convert_temperature value from_unit to_unit with
    | .ok r => .ok (r, plan)
    | .error e => .error e
  else
    match freeMetric value fu tu with
    | some r => .ok (r, plan)
    | none =>
      if plan ≠ "pro" then
        .error ⟨402, "Pro required for this conversion. Upgrade for $3/month or $30/year."⟩
      else
        match proBranches value fu tu with
        | some r => .ok (r, plan)
        | none => .error ⟨400, "Unsupported conversion units"⟩

/-- The JWT payload written by generate_entitlement (src/main.py lines
128-136) and read back by jwt.decode. The scope mapping has the single key
"converter"; its value is the scope_converter field. -/
structure TokenClaims where
  sub : String
  plan : String
  license_id : Option String
  iat : ℤ
  exp : ℤ
  scope_converter : String
  ver : ℕ
deriving DecidableEq, Repr

/-- A JWT as presented by a client: either a well-formed token correctly
signed with JWT_SECRET carrying a claims payload, or a malformed /
badly-signed token that jwt.decode rejects. -/
inductive Token where
  | signed (claims : TokenClaims)
  | invalid
deriving DecidableEq, Repr

/-- jwt.decode with the configured secret and algorithm: rejects malformed or
badly-signed tokens; when verifyExp is true (the default used at src/main.py
line 153) an elapsed expiry is also rejected; refresh passes verify_exp False
(line 270), which skips the expiry check. -/
def jwtDecode (verifyExp : Bool) (now : ℤ) (t : Token) : Option TokenClaims :=
  match t with
  | .invalid => none
  | .signed c => if verifyExp ∧ c.exp ≤ now then none else some c

/-- src/main.py lines 41-44: the EntitlementTokenResponse model. -/
structure EntitlementTokenResponse where
  entitlement_token : Token
  expires_at : ℤ
  plan : String
deriving DecidableEq, Repr

/-- src/main.py lines 125-138: generate_entitlement. `now` is the
int(time.time()) reading; the Python signature defaults license_id to None
and hours to 24, and every call site passes hours=24 explicitly or uses the
default. -/
def generate_entitlement (now : ℤ) (email : Option String) (plan : String)
    (license_id : Option String) (hours : ℤ) : EntitlementTokenResponse :=
  let exp := now + hours * 3600
  let payload : TokenClaims :=
    ⟨email.getD "anonymous", plan, license_id, now, exp, plan, 1⟩
  ⟨.signed payload, exp, plan⟩

/-- src/main.py lines 148-157: resolution of the plan from the optional
bearer token at the top of the /api/convert handler; any decode failure
(including an expired token) falls back to "free". -/
def resolvePlan (now : ℤ) (authorization : Option Token) : String :=
  match authorization with
  | none => "free"
  | some t =>
    match jwtDecode true now t with
    | some claims => if claims.plan = "pro" then "pro" else "free"
    | none => "free"

/-- src/schemas.py lines 16-22: the License document shape. Field values are
kept as strings; the Literal enums of the pydantic model are enforced by
mkLicense below. -/
structure License where
  user_email : String
  license_key : String
  plan : String
  status : String
  provider : String
  current_period_end : Option ℤ
deriving DecidableEq, Repr

/-- Pydantic construction of a License (src/schemas.py lines 16-22):
validation fails when plan is outside the Literal set
("pro-month" | "pro-year") or status outside
("active" | "canceled" | "expired" | "trial"); provider defaults to "dodo"
and current_period_end to None. -/
def mkLicense (user_email license_key plan status : String) :
    Except String License :=
  if plan ∈ (["pro-month", "pro-year"] : List String) then
    if status ∈ (["active", "canceled", "expired", "trial"] : List String) then
      .ok ⟨user_email, license_key, plan, status, "dodo", none⟩
    else .error "validation error: status"
  else .error "validation error: plan"

/-- The outcome of the outbound POST to the provider's license-verify
endpoint (src/main.py lines 236-239): an HTTP response whose JSON body
carries optional "status" and "plan" fields, or a transport/parse failure
whose message feeds the 502 detail. -/
inductive VerifyProviderResult where
  | response (statusCode : ℕ) (statusField : Option String) (planField : Option String)
  | transportFailure (msg : String)
deriving DecidableEq, Repr

/-- src/main.py lines 227-261: the /api/license/verify handler. `dodoApiKey`
is the DODO_API_KEY environment value; `provider` the outcome of the
outbound call; `dbAvailable` whether create_document succeeds (Modelled from
the spec: database.py is not in src; per the spec, create_document inserts
the document into the named collection and its failure is swallowed by this
handler). Returns the HTTP outcome together with the list of License
documents written to the "license" collection (empty when construction or
persistence failed, both of which are swallowed at lines 255-258). -/
def verify_license (now : ℤ) (dodoApiKey : String)
    (provider : VerifyProviderResult) (license_key : String)
    (user_email : Option String) (dbAvailable : Bool) :
    Except HTTPError EntitlementTokenResponse × List License :=
  if dodoApiKey = "" then
    (.error ⟨500, "Dodo Payments API key not configured"⟩, [])
  else
    match provider with
    | .transportFailure msg =>
      (.error ⟨502, "Dodo verification failed: " ++ msg.take 80⟩, [])
    | .response code statusField planField =>
      if code ≠ 200 then (.error ⟨400, "Invalid license key"⟩, [])
      else
        let plan :=
          if statusField = some "active" then planField.getD "pro" else "free"
        if statusField ≠ some "active" then
          (.error ⟨400, "License not active"⟩, [])
        else
          let written :=
            match mkLicense (user_email.getD "anonymous") license_key
                (if plan = "pro" then "pro-month" else "free") "active" with
            | .ok doc => if dbAvailable then [doc] else []
            | .error _ => []
          (.ok (generate_entitlement now user_email "pro" (some license_key) 24),
           written)

/-- The outcome of the outbound GET to the provider's license-status endpoint
(src/main.py lines 285-290): an HTTP response with an optional "status" JSON
field, or a transport/parse failure (any exception in the try block). -/
inductive StatusProviderResult where
  | response (statusCode : ℕ) (statusField : Option String)
  | transportFailure
deriving DecidableEq, Repr

/-- The HTTP outcome of a refresh call, together with whether the outbound
provider status call was made. -/
structure RefreshOutcome where
  response : Except HTTPError EntitlementTokenResponse
  contactedProvider : Bool
deriving Repr

/-- src/main.py lines 267-297: the /api/entitlement/refresh handler. Decodes
the presented token with verify_exp False; on decode failure raises 400
"Invalid token". With no provider key it re-issues the same subject / plan /
license_id; with a Python-falsy license_id (missing / None / the empty
string — line 281 tests `not license_id`) or the literal "anonymous" it
re-issues "free"; otherwise the provider decides: non-200 or status ≠
"active" → "free", status "active" → "pro" with the same license_id,
transport failure → the plan carried in the presented token, with the
license_id, 24 hours. -/
def refresh (now : ℤ) (dodoApiKey : String) (provider : StatusProviderResult)
    (token : Token) : RefreshOutcome :=
  match jwtDecode false now token with
  | none => ⟨.error ⟨400, "Invalid token"⟩, false⟩
  | some claims =>
    let email : Option String := some claims.sub
    if dodoApiKey = "" then
      ⟨.ok (generate_entitlement now email claims.plan claims.license_id 24), false⟩
    else
      match claims.license_id with
      | none => ⟨.ok (generate_entitlement now email "free" none 24), false⟩
      | some lid =>
        if lid = "" ∨ lid = "anonymous" then
          ⟨.ok (generate_entitlement now email "free" none 24), false⟩
        else
          match provider with
          | .transportFailure =>
            ⟨.ok (generate_entitlement now email claims.plan (some lid) 24), true⟩
          | .response code statusField =>
            if code ≠ 200 then
              ⟨.ok (generate_entitlement now email "free" none 24), true⟩
            else if statusField = some "active" then
              ⟨.ok (generate_entitlement now email "pro" (some lid) 24), true⟩
            else
              ⟨.ok (generate_entitlement now email "free" none 24), true⟩

/-! ## Theorems -/

/-- C8: converting a value from Celsius to Fahrenheit and then the result
back from Fahrenheit to Celsius returns the original value exactly (the
embedding computes over exact rationals). -/
theorem convert_temperature_roundtrip (x : ℚ) :
    (convert_temperature x "C" "F").bind (fun y => convert_temperature y "F" "C") =
      Except.ok x := by
  have h1 : convert_temperature x "C" "F" = .ok (x * 9 / 5 + 32) := rfl
  rw [h1]
  show convert_temperature (x * 9 / 5 + 32) "F" "C" = Except.ok x
  have h2 : convert_temperature (x * 9 / 5 + 32) "F" "C" =
      .ok (((x * 9 / 5 + 32) - 32) * 5 / 9) := rfl
  rw [h2]
  congr 1
  ring

/-- C3: convert(1, "mi", "km") fails with PaymentRequired (402) on plan
"free", and succeeds on plan "pro" returning exactly 1.609344, the ratio of
the meter factors 1609.344 / 1000.0. -/
theorem convert_mi_km_plans :
    convert 1 "mi" "km" "free" =
      Except.error
        ⟨402, "Pro required for this conversion. Upgrade for $3/month or $30/year."⟩ ∧
    convert 1 "mi" "km" "pro" = Except.ok (1.609344, "pro") := by
  constructor
  · rfl
  · have h : convert 1 "mi" "km" "pro" = .ok (1 * ((1609.344 : ℚ) / 1000.0), "pro") := rfl
    rw [h]
    norm_num

/-- C1 counterexample: the mixed-family request convert(1, "m", "kg") on plan
"free" fails with the PaymentRequired error 402, not with InvalidInput 400 —
refuting the claim that mixed-family requests never fail with
PaymentRequired. -/
theorem mixed_family_free_plan_pays_402 :
    convert 1 "m" "kg" "free" =
      Except.error
        ⟨402, "Pro required for this conversion. Upgrade for $3/month or $30/year."⟩ := rfl

/-- C1 (amended): a conversion request whose two units belong to different
free metric families fails with InvalidInput (400 "unsupported conversion
units") when the plan is "pro", and with PaymentRequired (402) when the plan
is anything else: the request falls through the free metric block and hits
the plan gate before the pro branches can reject it. -/
theorem convert_mixed_family_status (v : ℚ) (plan fu tu : String)
    (h : (fu ∈ freeLengthUnits ∧ tu ∈ freeWeightUnits) ∨
         (fu ∈ freeWeightUnits ∧ tu ∈ freeLengthUnits)) :
    convert v fu tu plan =
      (if plan = "pro" then Except.error ⟨400, "Unsupported conversion units"⟩
       else Except.error
         ⟨402, "Pro required for this conversion. Upgrade for $3/month or $30/year."⟩) := by
  simp only [freeLengthUnits, freeWeightUnits] at h
  rcases h with ⟨hf, ht⟩ | ⟨hf, ht⟩ <;> fin_cases hf <;> fin_cases ht <;>
    (rcases eq_or_ne plan "pro" with hp | hp
     · rw [if_pos hp]; subst hp; rfl
     · rw [if_neg hp]
       show (if plan ≠ "pro"
             then Except.error (HTTPError.mk 402
               "Pro required for this conversion. Upgrade for $3/month or $30/year.")
             else Except.error (HTTPError.mk 400 "Unsupported conversion units")) =
            Except.error (HTTPError.mk 402
              "Pro required for this conversion. Upgrade for $3/month or $30/year.")
       rw [if_pos hp])

/-- Witness for C1 (amended) at units "m" and "kg" on plan "pro". -/
theorem convert_mixed_family_status_witness :
    ((("m" : String) ∈ freeLengthUnits ∧ ("kg" : String) ∈ freeWeightUnits) ∨
     (("m" : String) ∈ freeWeightUnits ∧ ("kg" : String) ∈ freeLengthUnits)) ∧
    convert 1 "m" "kg" "pro" = Except.error ⟨400, "Unsupported conversion units"⟩ := by
  refine ⟨by decide, ?_⟩
  have h := convert_mixed_family_status 1 "pro" "m" "kg" (by decide)
  simpa using h

/-- C6: a token issued with the default hours value (24) expires exactly
24 × 3600 seconds after its issued-at timestamp, and decoding it immediately
(at issuance time, with expiry enforced) reports the plan it was issued
with. -/
theorem generate_entitlement_default_expiry (now : ℤ) (email : Option String)
    (plan : String) (license_id : Option String) :
    ∃ c : TokenClaims,
      (generate_entitlement now email plan license_id 24).entitlement_token = .signed c ∧
      (generate_entitlement now email plan license_id 24).expires_at = c.exp ∧
      c.exp = c.iat + 24 * 3600 ∧ c.iat = now ∧
      jwtDecode true now (generate_entitlement now email plan license_id 24).entitlement_token =
        some c ∧
      c.plan = plan := by
  refine ⟨⟨email.getD "anonymous", plan, license_id, now, now + 24 * 3600, plan, 1⟩,
    rfl, rfl, rfl, rfl, ?_, rfl⟩
  simp only [generate_entitlement, jwtDecode]
  rw [if_neg]
  simp

/-- C7: every token minted by generate_entitlement, whatever the subject,
plan, license-id and hours arguments, carries a scope mapping whose
"converter" entry equals the token's plan. -/
theorem entitlement_scope_eq_plan (now : ℤ) (email : Option String) (plan : String)
    (license_id : Option String) (hours : ℤ) :
    ∃ c : TokenClaims,
      (generate_entitlement now email plan license_id hours).entitlement_token = .signed c ∧
      c.scope_converter = c.plan := ⟨_, rfl, rfl⟩

/-- C2 counterexample: with the provider responding 200 but status
"canceled", verify_license raises HTTP 400 "License not active" (and writes
nothing) — refuting the claim that it returns plan "free" without raising. -/
theorem verify_license_inactive_raises :
    verify_license 0 "k" (.response 200 (some "canceled") none) "LK" none true =
      (Except.error ⟨400, "License not active"⟩, []) := rfl

/-- C2 (amended): for every license key for which the provider responds
successfully (HTTP 200) but reports a status other than "active", the
license-verification operation fails with the UpstreamRejected error
(400 "License not active"); the internal plan value "free" never reaches a
response, and no License document is persisted. -/
theorem verify_license_inactive_400 (now : ℤ) (key lk : String)
    (statusField planField : Option String) (email : Option String) (db : Bool)
    (hkey : key ≠ "") (hst : statusField ≠ some "active") :
    verify_license now key (.response 200 statusField planField) lk email db =
      (Except.error ⟨400, "License not active"⟩, []) := by
  simp [verify_license, hkey, hst]

/-- Witness for C2 (amended) at a concrete inactive provider response. -/
theorem verify_license_inactive_400_witness :
    (("k" : String) ≠ "" ∧ (some "canceled" : Option String) ≠ some "active") ∧
    verify_license 5 "k" (.response 200 (some "canceled") (some "pro")) "LK2"
        (some "a@b.c") true =
      (Except.error ⟨400, "License not active"⟩, []) :=
  ⟨⟨by decide, by decide⟩,
   verify_license_inactive_400 5 "k" "LK2" (some "canceled") (some "pro")
     (some "a@b.c") true (by decide) (by decide)⟩

/-- C4 counterexample: a signed token carrying the empty-string license-id
(which is not "anonymous"), with a provider key configured and the provider
ready to report status "active": the code treats the Python-falsy license-id
like a missing one (main.py line 281), re-issuing a "free" token with no
license-id and never contacting the provider — not the provider-driven
outcomes the claim asserts for every license-id other than "anonymous". -/
theorem refresh_empty_license_id_free :
    refresh 0 "k" (.response 200 (some "active"))
        (.signed ⟨"a@b.c", "pro", some "", 0, 86400, "pro", 1⟩) =
      ⟨.ok (generate_entitlement 0 (some "a@b.c") "free" none 24), false⟩ := rfl

/-- C4 (amended): for a refresh whose presented token carries a non-empty
license-id other than "anonymous" (an empty-string license-id is falsy in
Python and is treated like a missing one: "free" is re-issued without
contacting the provider) and with a provider key configured: a non-200
provider response or a status other than "active" re-issues "free"; status
"active" re-issues "pro" with the same license-id; and a transport failure
re-issues the plan carried in the presented token, with a 24-hour expiry. -/
theorem refresh_provider_decision (now : ℤ) (key : String) (c : TokenClaims) (lid : String)
    (hkey : key ≠ "") (hlid : c.license_id = some lid) (hempty : lid ≠ "")
    (hanon : lid ≠ "anonymous") :
    (∀ code statusField, code ≠ 200 →
      refresh now key (.response code statusField) (.signed c) =
        ⟨.ok (generate_entitlement now (some c.sub) "free" none 24), true⟩) ∧
    (∀ statusField, statusField ≠ some "active" →
      refresh now key (.response 200 statusField) (.signed c) =
        ⟨.ok (generate_entitlement now (some c.sub) "free" none 24), true⟩) ∧
    refresh now key (.response 200 (some "active")) (.signed c) =
      ⟨.ok (generate_entitlement now (some c.sub) "pro" (some lid) 24), true⟩ ∧
    refresh now key .transportFailure (.signed c) =
      ⟨.ok (generate_entitlement now (some c.sub) c.plan (some lid) 24), true⟩ ∧
    (generate_entitlement now (some c.sub) c.plan (some lid) 24).expires_at =
      now + 24 * 3600 := by
  refine ⟨?_, ?_, ?_, ?_, rfl⟩
  · intro code statusField hc
    simp [refresh, jwtDecode, hkey, hlid, hempty, hanon, hc]
  · intro statusField hs
    simp [refresh, jwtDecode, hkey, hlid, hempty, hanon, hs]
  · simp [refresh, jwtDecode, hkey, hlid, hempty, hanon]
  · simp [refresh, jwtDecode, hkey, hlid, hempty, hanon]

/-- Witness for C4 (amended) at a concrete active provider response. -/
theorem refresh_provider_decision_witness :
    (("k" : String) ≠ "" ∧
     (⟨"a@b.c", "pro", some "L1", 0, 86400, "pro", 1⟩ : TokenClaims).license_id =
       some "L1" ∧ ("L1" : String) ≠ "" ∧ ("L1" : String) ≠ "anonymous") ∧
    refresh 0 "k" (.response 200 (some "active"))
        (.signed ⟨"a@b.c", "pro", some "L1", 0, 86400, "pro", 1⟩) =
      ⟨.ok (generate_entitlement 0 (some "a@b.c") "pro" (some "L1") 24), true⟩ :=
  ⟨⟨by decide, rfl, by decide, by decide⟩,
   (refresh_provider_decision 0 "k" ⟨"a@b.c", "pro", some "L1", 0, 86400, "pro", 1⟩ "L1"
     (by decide) rfl (by decide) (by decide)).2.2.1⟩

/-- Helper: on a correctly signed token, refresh always answers 200 with a
token freshly issued for 24 hours, whatever the provider key, the provider
outcome and the claims. -/
lemma refresh_signed_response (now : ℤ) (key : String) (p : StatusProviderResult)
    (c : TokenClaims) :
    ∃ e pl li ct, refresh now key p (.signed c) =
      ⟨.ok (generate_entitlement now e pl li 24), ct⟩ := by
  rcases eq_or_ne key "" with hk | hk
  · exact ⟨some c.sub, c.plan, c.license_id, false, by simp [refresh, jwtDecode, hk]⟩
  · rcases hli : c.license_id with _ | lid
    · exact ⟨some c.sub, "free", none, false, by simp [refresh, jwtDecode, hk, hli]⟩
    · by_cases ha : lid = "" ∨ lid = "anonymous"
      · refine ⟨some c.sub, "free", none, false, ?_⟩
        rcases ha with h | h <;> simp [refresh, jwtDecode, hk, hli, h]
      · push_neg at ha
        obtain ⟨ha1, ha2⟩ := ha
        cases p with
        | transportFailure =>
          exact ⟨some c.sub, c.plan, some lid, true,
            by simp [refresh, jwtDecode, hk, hli, ha1, ha2]⟩
        | response code st =>
          rcases eq_or_ne code 200 with hc | hc
          · rcases eq_or_ne st (some "active") with hs | hs
            · exact ⟨some c.sub, "pro", some lid, true,
                by simp [refresh, jwtDecode, hk, hli, ha1, ha2, hc, hs]⟩
            · exact ⟨some c.sub, "free", none, true,
                by simp [refresh, jwtDecode, hk, hli, ha1, ha2, hc, hs]⟩
          · exact ⟨some c.sub, "free", none, true,
              by simp [refresh, jwtDecode, hk, hli, ha1, ha2, hc]⟩

/-- C5: refresh decodes the presented token without enforcing expiry, so a
correctly signed token whose expiry has elapsed still succeeds and a fresh
non-expired 24-hour token is re-issued; a malformed or badly signed token
fails with 400 "Invalid token". -/
theorem refresh_ignores_expiry (now : ℤ) (key : String) (p : StatusProviderResult)
    (c : TokenClaims) (hexp : c.exp ≤ now) :
    (∃ r, (refresh now key p (.signed c)).response = .ok r ∧
      r.expires_at = now + 24 * 3600 ∧ now < r.expires_at ∧
      (jwtDecode true now r.entitlement_token).isSome) ∧
    refresh now key p .invalid = ⟨.error ⟨400, "Invalid token"⟩, false⟩ := by
  refine ⟨?_, rfl⟩
  obtain ⟨e, pl, li, ct, h⟩ := refresh_signed_response now key p c
  refine ⟨generate_entitlement now e pl li 24, by rw [h], rfl, ?_, ?_⟩
  · show now < now + 24 * 3600
    omega
  · simp [generate_entitlement, jwtDecode]

/-- Witness for C5 at a concrete token expired 50 seconds before now. -/
theorem refresh_ignores_expiry_witness :
    ((⟨"a@b.c", "pro", some "L1", -100, -50, "pro", 1⟩ : TokenClaims).exp ≤ (0 : ℤ)) ∧
    ((∃ r, (refresh 0 "k" .transportFailure
        (.signed ⟨"a@b.c", "pro", some "L1", -100, -50, "pro", 1⟩)).response = .ok r ∧
      r.expires_at = 0 + 24 * 3600 ∧ (0 : ℤ) < r.expires_at ∧
      (jwtDecode true 0 r.entitlement_token).isSome) ∧
    refresh 0 "k" .transportFailure Token.invalid =
      ⟨.error ⟨400, "Invalid token"⟩, false⟩) :=
  ⟨by decide,
   refresh_ignores_expiry 0 "k" .transportFailure
     ⟨"a@b.c", "pro", some "L1", -100, -50, "pro", 1⟩ (by decide)⟩

/-- C9: every License document verify_license actually writes has plan
"pro-month" and status "active"; and when the provider reports an active
license whose plan field is any string other than "pro", the mapped value
"free" violates the License plan enum, pydantic construction fails, the
failure is swallowed, and no document is written while the response still
succeeds. -/
theorem license_persist_invariant :
    (∀ (now : ℤ) (key : String) (p : VerifyProviderResult) (lk : String)
        (email : Option String) (db : Bool) (doc : License),
      doc ∈ (verify_license now key p lk email db).2 →
      doc.plan = "pro-month" ∧ doc.status = "active") ∧
    (∀ (now : ℤ) (key lk s : String) (email : Option String) (db : Bool),
      key ≠ "" → s ≠ "pro" →
      verify_license now key (.response 200 (some "active") (some s)) lk email db =
        (.ok (generate_entitlement now email "pro" (some lk) 24), [])) := by
  constructor
  · intro now key p lk email db doc hdoc
    by_cases hk : key = ""
    · simp [verify_license, hk] at hdoc
    · cases p with
      | transportFailure msg => simp [verify_license, hk] at hdoc
      | response code st pf =>
        by_cases hc : code = 200
        · subst hc
          by_cases hs : st = some "active"
          · by_cases hplan : pf.getD "pro" = "pro"
            · simp [verify_license, mkLicense, hk, hs, hplan] at hdoc
              rcases db with _ | _
              · simp at hdoc
              · simp at hdoc
                subst hdoc
                exact ⟨rfl, rfl⟩
            · simp [verify_license, mkLicense, hk, hs, hplan] at hdoc
          · simp [verify_license, hk, hs] at hdoc
        · simp [verify_license, hk, hc] at hdoc
  · intro now key lk s email db hk hs
    simp [verify_license, mkLicense, hk, hs]

/-- Witness for C9: a concrete persisted document (provider plan "pro") and a
concrete skipped persistence (provider plan "enterprise"). -/
theorem license_persist_invariant_witness :
    ((License.mk "a@b.c" "LK" "pro-month" "active" "dodo" none ∈
        (verify_license 0 "k" (.response 200 (some "active") (some "pro")) "LK"
          (some "a@b.c") true).2) ∧
      ((License.mk "a@b.c" "LK" "pro-month" "active" "dodo" none).plan = "pro-month" ∧
       (License.mk "a@b.c" "LK" "pro-month" "active" "dodo" none).status = "active")) ∧
    (("k" : String) ≠ "" ∧ ("enterprise" : String) ≠ "pro" ∧
      verify_license 3 "k" (.response 200 (some "active") (some "enterprise")) "LK9"
          (some "x@y.z") true =
        (.ok (generate_entitlement 3 (some "x@y.z") "pro" (some "LK9") 24), [])) :=
  ⟨⟨by decide,
    license_persist_invariant.1 0 "k" (.response 200 (some "active") (some "pro")) "LK"
      (some "a@b.c") true (License.mk "a@b.c" "LK" "pro-month" "active" "dodo" none)
      (by decide)⟩,
   by decide, by decide,
   license_persist_invariant.2 3 "k" "LK9" "enterprise" (some "x@y.z") true
     (by decide) (by decide)⟩

/-- C10: whenever refresh re-issues a "free" token (no license-id, the
literal "anonymous", a non-200 provider response, or an inactive status),
the re-issued token carries no license-id, so a later refresh of it returns
another "free" token without contacting the provider. -/
theorem refresh_free_reissue_no_license (now now2 : ℤ) (key : String)
    (p p2 : StatusProviderResult) (c : TokenClaims) (hkey : key ≠ "")
    (hfree : c.license_id = none ∨ c.license_id = some "anonymous" ∨
      (∃ code st, p = .response code st ∧ (code ≠ 200 ∨ st ≠ some "active"))) :
    ∃ r : EntitlementTokenResponse,
      (refresh now key p (.signed c)).response = .ok r ∧ r.plan = "free" ∧
      (∃ c2, r.entitlement_token = .signed c2 ∧ c2.license_id = none) ∧
      refresh now2 key p2 r.entitlement_token =
        ⟨.ok (generate_entitlement now2 (some c.sub) "free" none 24), false⟩ := by
  refine ⟨generate_entitlement now (some c.sub) "free" none 24, ?_, rfl, ⟨_, rfl, rfl⟩, ?_⟩
  · rcases hfree with hli | hli | ⟨code, st, hp, hbad⟩
    · simp [refresh, jwtDecode, hkey, hli]
    · simp [refresh, jwtDecode, hkey, hli]
    · subst hp
      rcases hli2 : c.license_id with _ | lid
      · simp [refresh, jwtDecode, hkey, hli2]
      · by_cases ha : lid = "" ∨ lid = "anonymous"
        · rcases ha with h | h <;> simp [refresh, jwtDecode, hkey, hli2, h]
        · push_neg at ha
          obtain ⟨ha1, ha2⟩ := ha
          rcases hbad with hc | hs
          · simp [refresh, jwtDecode, hkey, hli2, ha1, ha2, hc]
          · rcases eq_or_ne code 200 with hc | hc
            · simp [refresh, jwtDecode, hkey, hli2, ha1, ha2, hc, hs]
            · simp [refresh, jwtDecode, hkey, hli2, ha1, ha2, hc]
  · simp [refresh, jwtDecode, generate_entitlement, hkey]

/-- Witness for C10 at a concrete 404 provider response followed by a second
refresh under a transport failure. -/
theorem refresh_free_reissue_no_license_witness :
    (("k" : String) ≠ "" ∧
      ((⟨"a@b.c", "pro", some "L1", 0, 86400, "pro", 1⟩ : TokenClaims).license_id = none ∨
       (⟨"a@b.c", "pro", some "L1", 0, 86400, "pro", 1⟩ : TokenClaims).license_id =
         some "anonymous" ∨
       (∃ code st, (StatusProviderResult.response 404 none) =
          StatusProviderResult.response code st ∧
          (code ≠ 200 ∨ st ≠ some "active")))) ∧
    (∃ r : EntitlementTokenResponse,
      (refresh 0 "k" (.response 404 none)
        (.signed ⟨"a@b.c", "pro", some "L1", 0, 86400, "pro", 1⟩)).response = .ok r ∧
      r.plan = "free" ∧
      (∃ c2, r.entitlement_token = .signed c2 ∧ c2.license_id = none) ∧
      refresh 7 "k" .transportFailure r.entitlement_token =
        ⟨.ok (generate_entitlement 7 (some "a@b.c") "free" none 24), false⟩) :=
  ⟨⟨by decide, Or.inr (Or.inr ⟨404, none, rfl, Or.inl (by decide)⟩)⟩,
   refresh_free_reissue_no_license 0 7 "k" (.response 404 none) .transportFailure
     ⟨"a@b.c", "pro", some "L1", 0, 86400, "pro", 1⟩ (by decide)
     (Or.inr (Or.inr ⟨404, none, rfl, Or.inl (by decide)⟩))⟩

end ToolkitConverter
